import Mathlib

/-!
Verification of the payment-matching and notification engine of the
TRON USDT payment monitor (`app.py`, `models.py`).

The engine's data and control flow are embedded shallowly:

* amounts are rationals (`ℚ`), embedding the exact decimal arithmetic
  `rawAmount / 10^tokenDecimals` that the matching predicate is specified
  over;
* JSON fields that may be absent are `Option`s, with the same defaults the
  code applies via `dict.get`;
* the ledger fetch (`get_trc20_transactions`), which either returns a list
  of transfer records or `None` on any request error, is passed to
  `process_pending_payment` as an `Option (List TransferRecord)` argument;
* wall-clock readings (`time.time()`, `datetime.utcnow()`) are explicit
  arguments;
* the database session is a list of payment rows; audit-log writes
  (`PaymentLog.log_event`) are returned as an event list.
-/

namespace CPSP

/-- `models.PaymentStatus`: the closed status enum. -/
inductive PaymentStatus
  | pending
  | completed
  | failed
  | expired
deriving DecidableEq, Repr

/-- The `token_info` sub-object of a TronGrid TRC20 transfer record.
`address` and `decimals` may each be absent from the JSON. -/
structure TokenInfo where
  address : Option String
  decimals : Option Nat
deriving DecidableEq, Repr

/-- A TRC20 transfer record as returned by the TronGrid API and consumed by
`process_pending_payment` (app.py lines 196-221).  Every field the code
reads with `tx.get(...)` may be absent, hence the `Option`s.  `value` is the
raw integer amount in the token's smallest unit (the code parses it with
`int(...)`).  `to_addr` embeds the JSON key `to` (`to` is reserved in
Lean). -/
structure TransferRecord where
  to_addr : Option String
  token_info : Option TokenInfo
  value : Option Int
  transaction_id : Option String
  block_timestamp : Option Int
deriving DecidableEq, Repr

/-- app.py line 31: the configured USDT TRC20 contract address constant. -/
def USDT_TRC20_CONTRACT_ADDRESS : String := "TR7NHqjeKQxGTCi8q8ZY4pL8otSzgjLj6t"

/-- `models.Payment`: one row of the `payments` table.  Timestamps that the
code stores as `DateTime` are rationals (seconds since epoch);
`last_checked_timestamp` is an integer (milliseconds since epoch), as in the
`BigInteger` column. -/
structure Payment where
  id : String
  wallet_address : String
  expected_amount_usdt : ℚ
  callback_url : String
  order_id : String
  status : PaymentStatus
  transaction_hash : Option String
  received_amount_usdt : Option ℚ
  created_at : ℚ
  completed_at : Option ℚ
  last_checked_timestamp : Int
  callback_attempts : Nat
  last_callback_attempt : Option ℚ
  callback_success : Bool
deriving DecidableEq, Repr

/-- `Payment.mark_completed` (models.py lines 93-98): unconditionally sets
status to COMPLETED and stamps hash, amount and completion time.  There is
no guard on the current status. -/
def Payment.mark_completed (p : Payment) (h : Option String) (received : ℚ)
    (now_s : ℚ) : Payment :=
  { p with
    status := .completed
    transaction_hash := h
    received_amount_usdt := some received
    completed_at := some now_s }

/-- `Payment.mark_expired` (models.py lines 100-102): unconditionally sets
status to EXPIRED; no guard on the current status. -/
def Payment.mark_expired (p : Payment) : Payment :=
  { p with status := .expired }

/-- `Payment.increment_callback_attempt` (models.py lines 108-111). -/
def Payment.increment_callback_attempt (p : Payment) (now_s : ℚ) : Payment :=
  { p with
    callback_attempts := p.callback_attempts + 1
    last_callback_attempt := some now_s }

/-- `Payment.mark_callback_success` (models.py lines 113-115). -/
def Payment.mark_callback_success (p : Payment) : Payment :=
  { p with callback_success := true }

/-- `tx.get('token_info', {}).get('decimals', 6)` (app.py line 201): the
token's decimals, defaulting to 6 whether `token_info` or just its
`decimals` key is missing. -/
def tokenDecimals (tx : TransferRecord) : Nat :=
  match tx.token_info with
  | none => 6
  | some ti => ti.decimals.getD 6

/-- `tx.get('token_info', {}).get('address')` (app.py line 198): the token
contract address, `none` when `token_info` or its `address` key is
missing. -/
def tokenContractAddress (tx : TransferRecord) : Option String :=
  match tx.token_info with
  | none => none
  | some ti => ti.address

/-- `int(tx.get('value', 0))` (app.py line 200): the raw amount, defaulting
to 0 when the `value` key is missing. -/
def amountRaw (tx : TransferRecord) : Int :=
  tx.value.getD 0

/-- `amount_raw / (10 ** token_decimals)` (app.py line 203): the decimal
amount of the transfer. -/
def receivedAmount (tx : TransferRecord) : ℚ :=
  (amountRaw tx : ℚ) / (10 : ℚ) ^ tokenDecimals tx

/-- The matching predicate of app.py lines 198 and 207: the transfer is
addressed to the payment's wallet, carries the configured USDT contract,
and its decimal amount is within 1e-6 of the expected amount. -/
def txQualifies (p : Payment) (tx : TransferRecord) : Bool :=
  tx.to_addr == some p.wallet_address &&
  tokenContractAddress tx == some USDT_TRC20_CONTRACT_ADDRESS &&
  decide (|receivedAmount tx - p.expected_amount_usdt| < 1 / 1000000)

/-- The audit-log event types written by the engine
(`PaymentLog.log_event` call sites in app.py). -/
inductive EventType
  | created
  | checking
  | api_error
  | completed
  | callback_sent
  | callback_failed
  | expired
  | procError
deriving DecidableEq, Repr

/-- Outcome of the HTTP POST performed inside `send_callback`: either the
endpoint answered 2xx, or the request failed (timeout, connection error, or
a non-2xx status turned into an exception by `raise_for_status`). -/
inductive PostOutcome
  | ok
  | requestError
deriving DecidableEq, Repr

/-- `send_callback` (app.py lines 125-137).  The body wraps the POST in
`try/except requests.exceptions.RequestException`: on failure it only logs
the error and falls through, so the function returns normally in both
cases and never propagates the delivery failure to its caller. -/
def send_callback (delivered : PostOutcome) : Except String Unit :=
  match delivered with
  | .ok => .ok ()
  | .requestError => .ok ()

/-- The transfer scan of `process_pending_payment` (app.py lines 196-249):
walk the fetched transfers in order; on the first transfer satisfying
`txQualifies`, mark the payment completed, log `completed`, increment the
callback bookkeeping, attempt the callback (the `try` block of lines
239-245: success marks `callback_success` and logs `callback_sent`, an
exception escaping `send_callback` logs `callback_failed`), and `break`.
Returns the updated payment and the events logged during the scan. -/
def scanTransfers (p : Payment) (now_s : ℚ) (delivered : PostOutcome) :
    List TransferRecord → Payment × List EventType
  | [] => (p, [])
  | tx :: rest =>
    if txQualifies p tx then
      let p1 := (p.mark_completed tx.transaction_id (receivedAmount tx)
          now_s).increment_callback_attempt now_s
      match send_callback delivered with
      | .ok _ => (p1.mark_callback_success, [.completed, .callback_sent])
      | .error _ => (p1, [.completed, .callback_failed])
    else
      scanTransfers p now_s delivered rest

/-- `process_pending_payment` (app.py lines 171-253).  `fetched` is the
result of `get_trc20_transactions`: `none` when the request failed (the
function logs `api_error` and returns early, leaving the payment
untouched), otherwise the returned transfer list.  On success the scan
runs and then `last_checked_timestamp` is set to the current wall-clock
time in milliseconds (`now_ms`), whether or not a match was found.
`now_s` is the wall-clock reading used for the `DateTime` stamps. -/
def process_pending_payment (p : Payment) (fetched : Option (List TransferRecord))
    (now_ms : Int) (now_s : ℚ) (delivered : PostOutcome) :
    Payment × List EventType :=
  match fetched with
  | none => (p, [.checking, .api_error])
  | some txs =>
    let r := scanTransfers p now_s delivered txs
    ({ r.1 with last_checked_timestamp := now_ms }, .checking :: r.2)

/-- The selection predicate of `Payment.get_expired_payments` (models.py
lines 84-91): status is PENDING and `created_at` is strictly before the
cutoff (`utcnow - max_age_seconds`). -/
def expirable (cutoff : ℚ) (p : Payment) : Bool :=
  p.status == .pending && decide (p.created_at < cutoff)

/-- The per-payment effect of the expiry sweep: a payment selected by
`Payment.get_expired_payments` is marked expired, any other is left
alone. -/
def sweepPayment (cutoff : ℚ) (p : Payment) : Payment :=
  if expirable cutoff p then p.mark_expired else p

/-- `cleanup_expired_payments` (app.py lines 77-95): mark every payment
selected by `Payment.get_expired_payments` as expired and log an `expired`
event for each.  Returns the updated store and the events logged. -/
def cleanup_expired_payments (cutoff : ℚ) (store : List Payment) :
    List Payment × List (String × EventType) :=
  (store.map (sweepPayment cutoff),
   (store.filter (expirable cutoff)).map (fun p => (p.id, .expired)))

/-- Outcome of the `create_payment` endpoint on the duplicate-order path. -/
inductive CreateResult
  | created (paymentId : String)
  | duplicatePendingOrder
  | integrityError
deriving DecidableEq, Repr

/-- The duplicate-order logic of `create_payment` (app.py lines 310-346)
combined with the schema of models.py line 31.  The endpoint first queries
for an existing payment with the same `order_id` AND status PENDING and
answers 409 (`duplicatePendingOrder`) if one exists; otherwise it inserts
the new row and commits.  The `order_id` column is declared `unique=True`
with no status qualification, so the commit raises `IntegrityError`
(caught by the generic handler, HTTP 500, session rolled back) whenever
ANY existing row — pending or terminal — carries the same `order_id`.
`newPayment` is the already-validated row built at lines 322-330; the
field validations of lines 280-308 precede this logic and only reject
malformed input. -/
def create_payment (store : List Payment) (newPayment : Payment) :
    CreateResult × List Payment :=
  if store.any (fun q => q.order_id == newPayment.order_id && q.status == .pending) then
    (.duplicatePendingOrder, store)
  else if store.any (fun q => q.order_id == newPayment.order_id) then
    (.integrityError, store)
  else
    (.created newPayment.id, store ++ [newPayment])

/-- The Python exception classes relevant to the per-payment `try/except`
of the monitor loop. -/
inductive PyExc
  | requestException
  | valueError
  | otherException
deriving DecidableEq, Repr

/-- The per-payment loop of one tick of `monitor_tron_addresses` (app.py
lines 159-167).  Each pending payment is paired with the outcome of its
`process_pending_payment` call: `none` if it returned normally, `some e`
if it raised exception class `e`.  The per-item handler catches exactly
`(requests.exceptions.RequestException, ValueError)`, logs an error event
and continues with the next payment; any other exception propagates to
the tick-level `except Exception` handler (lines 166-167), which logs it
and ends the iteration — the remaining payments of this tick are not
processed.  Returns the ids whose processing was invoked this tick and
the per-item error events logged. -/
def monitorLoop : List (String × Option PyExc) → List String × List (String × EventType)
  | [] => ([], [])
  | (pid, none) :: rest =>
    let r := monitorLoop rest
    (pid :: r.1, r.2)
  | (pid, some .requestException) :: rest =>
    let r := monitorLoop rest
    (pid :: r.1, (pid, .procError) :: r.2)
  | (pid, some .valueError) :: rest =>
    let r := monitorLoop rest
    (pid :: r.1, (pid, .procError) :: r.2)
  | (pid, some .otherException) :: _ => ([pid], [])

/-- One store-level operation of the reconciliation scheduler: the expiry
sweep, or one matching-engine pass over the pending payments
(`monitor_tron_addresses` invokes `process_pending_payment` only on the
payments returned by `Payment.get_pending_payments`, i.e. those with
status PENDING). -/
inductive SchedOp where
  | expirySweep (cutoff : ℚ)
  | engineRun (fetched : Payment → Option (List TransferRecord))
      (now_ms : Int) (now_s : ℚ) (delivered : PostOutcome)

/-- Apply one scheduler operation to the payment store. -/
def applyOp (op : SchedOp) (store : List Payment) : List Payment :=
  match op with
  | .expirySweep cutoff => (cleanup_expired_payments cutoff store).1
  | .engineRun f now_ms now_s d =>
    store.map (fun p =>
      if p.status == .pending then (process_pending_payment p (f p) now_ms now_s d).1 else p)

/-- Apply a sequence of scheduler operations, oldest first. -/
def applyOps (ops : List SchedOp) (store : List Payment) : List Payment :=
  ops.foldl (fun s op => applyOp op s) store

/-- The forward direction of the payment lifecycle: a status either stays
put or moves from Pending to one of the two scheduler-reachable terminal
states. -/
def statusForward (a b : PaymentStatus) : Prop :=
  a = b ∨ (a = .pending ∧ (b = .completed ∨ b = .expired))

/-! Concrete fixtures, used by witnesses and counterexamples.  `p0` and
`tx0` realize Scenario A of the spec: expected amount 12.34 USDT, raw
transfer amount 12340000 with 6 decimals. -/

/-- A pending payment expecting 12.34 USDT. -/
def p0 : Payment :=
  { id := "pay-1"
    wallet_address := "TWalletAddrWalletAddrWalletAddr123"
    expected_amount_usdt := 1234 / 100
    callback_url := "https://shop.example/webhook"
    order_id := "ORD-1"
    status := .pending
    transaction_hash := none
    received_amount_usdt := none
    created_at := 1000
    completed_at := none
    last_checked_timestamp := 500
    callback_attempts := 0
    last_callback_attempt := none
    callback_success := false }

/-- A transfer of 12340000 raw units (12.34 USDT) to `p0`'s wallet. -/
def tx0 : TransferRecord :=
  { to_addr := some "TWalletAddrWalletAddrWalletAddr123"
    token_info := some { address := some USDT_TRC20_CONTRACT_ADDRESS, decimals := some 6 }
    value := some 12340000
    transaction_id := some "tx-hash-1"
    block_timestamp := some 999 }

/-- A transfer to a different wallet: does not qualify for `p0`. -/
def txOther : TransferRecord :=
  { tx0 with to_addr := some "TOtherWalletOtherWalletOtherWal456" }

/-- A second qualifying transfer for `p0`, with a different hash, placed
after `tx0` in a batch to exercise first-match-wins. -/
def tx1 : TransferRecord :=
  { tx0 with transaction_id := some "tx-hash-2" }

/-- A transfer whose `token_info` is present but lacks `decimals`. -/
def txNoDecimals : TransferRecord :=
  { to_addr := some "TWalletAddrWalletAddrWalletAddr123"
    token_info := some { address := some USDT_TRC20_CONTRACT_ADDRESS, decimals := none }
    value := some 5000000
    transaction_id := some "tx-hash-3"
    block_timestamp := some 999 }

/-- A transfer with no `value` field. -/
def txNoValue : TransferRecord :=
  { to_addr := some "TWalletAddrWalletAddrWalletAddr123"
    token_info := some { address := some USDT_TRC20_CONTRACT_ADDRESS, decimals := some 6 }
    value := none
    transaction_id := some "tx-hash-4"
    block_timestamp := some 999 }

/-- A payment in the terminal COMPLETED state, order id "ORD-A". -/
def completedA : Payment :=
  { id := "pay-A"
    wallet_address := "TWalletAddrWalletAddrWalletAddr123"
    expected_amount_usdt := 50
    callback_url := "https://shop.example/webhook"
    order_id := "ORD-A"
    status := .completed
    transaction_hash := some "tx-hash-A"
    received_amount_usdt := some 50
    created_at := 1000
    completed_at := some 2000
    last_checked_timestamp := 500
    callback_attempts := 1
    last_callback_attempt := some 2000
    callback_success := true }

/-- A fresh pending payment reusing the order id "ORD-A" of `completedA`. -/
def newA : Payment :=
  { completedA with
    id := "pay-B"
    status := .pending
    transaction_hash := none
    received_amount_usdt := none
    completed_at := none
    callback_attempts := 0
    last_callback_attempt := none
    callback_success := false }

/-- A second pending payment reusing the order id "ORD-1" of `p0`. -/
def dupPending : Payment :=
  { p0 with id := "pay-D" }

/-! Helper lemmas shared by the claim theorems. -/

/-- `send_callback` returns normally whatever the POST outcome: the
internal `except RequestException` swallows the failure. -/
theorem send_callback_ok (d : PostOutcome) : send_callback d = .ok () := by
  cases d <;> rfl

/-- The scan skips a prefix of non-qualifying transfers. -/
theorem scanTransfers_skip (p : Payment) (now_s : ℚ) (d : PostOutcome)
    (pre l : List TransferRecord) (hpre : ∀ t ∈ pre, txQualifies p t = false) :
    scanTransfers p now_s d (pre ++ l) = scanTransfers p now_s d l := by
  induction pre with
  | nil => rfl
  | cons t ts ih =>
    have ht : txQualifies p t = false := hpre t (List.mem_cons_self t ts)
    have hts : ∀ u ∈ ts, txQualifies p u = false := fun u hu => hpre u (List.mem_cons_of_mem t hu)
    rw [List.cons_append]
    show (if txQualifies p t then _ else scanTransfers p now_s d (ts ++ l)) = _
    rw [if_neg (by simp [ht]), ih hts]

/-- The scan on a list headed by a qualifying transfer completes the
payment off that head, independently of the tail. -/
theorem scanTransfers_head_match (p : Payment) (now_s : ℚ) (d : PostOutcome)
    (tx : TransferRecord) (l : List TransferRecord) (h : txQualifies p tx = true) :
    scanTransfers p now_s d (tx :: l) =
      (((p.mark_completed tx.transaction_id (receivedAmount tx)
          now_s).increment_callback_attempt now_s).mark_callback_success,
       [.completed, .callback_sent]) := by
  show (if txQualifies p tx then _ else scanTransfers p now_s d l) = _
  rw [if_pos (by simp [h]), send_callback_ok]

/-- The scan leaves the status alone or sets it to COMPLETED. -/
theorem scanTransfers_status (p : Payment) (now_s : ℚ) (d : PostOutcome)
    (txs : List TransferRecord) :
    (scanTransfers p now_s d txs).1.status = p.status ∨
      (scanTransfers p now_s d txs).1.status = .completed := by
  induction txs with
  | nil => exact Or.inl rfl
  | cons tx rest ih =>
    cases hq : txQualifies p tx with
    | true =>
      rw [scanTransfers_head_match p now_s d tx rest hq]
      exact Or.inr rfl
    | false =>
      have hrw : scanTransfers p now_s d (tx :: rest) = scanTransfers p now_s d rest := by
        show (if txQualifies p tx then _ else scanTransfers p now_s d rest) = _
        rw [if_neg (by simp [hq])]
      rw [hrw]
      exact ih

/-- `statusForward` is reflexive. -/
theorem statusForward_refl (a : PaymentStatus) : statusForward a a := Or.inl rfl

/-- `statusForward` is transitive. -/
theorem statusForward_trans {a b c : PaymentStatus}
    (h₁ : statusForward a b) (h₂ : statusForward b c) : statusForward a c := by
  rcases h₁ with rfl | ⟨rfl, hb⟩
  · exact h₂
  · rcases h₂ with rfl | ⟨rfl, _⟩
    · exact Or.inr ⟨rfl, hb⟩
    · rcases hb with h | h <;> cases h

/-- Pointwise status progress lifts to a store-wide `map`. -/
theorem forall₂_status_map (f : Payment → Payment) (store : List Payment)
    (hf : ∀ p, statusForward p.status (f p).status) :
    List.Forall₂ (fun p q => statusForward p.status q.status) store (store.map f) := by
  induction store with
  | nil => exact List.Forall₂.nil
  | cons p ps ih => exact List.Forall₂.cons (hf p) ih

/-- `Forall₂` over `statusForward` composes. -/
theorem forall₂_status_trans {l₁ l₂ l₃ : List Payment}
    (h₁ : List.Forall₂ (fun p q => statusForward p.status q.status) l₁ l₂)
    (h₂ : List.Forall₂ (fun p q => statusForward p.status q.status) l₂ l₃) :
    List.Forall₂ (fun p q => statusForward p.status q.status) l₁ l₃ := by
  induction h₁ generalizing l₃ with
  | nil => cases h₂; exact List.Forall₂.nil
  | cons hab _ ih =>
    cases h₂ with
    | cons hbc h₂ => exact List.Forall₂.cons (statusForward_trans hab hbc) (ih h₂)

/-- The per-payment processing step leaves the status alone or sets it to
COMPLETED. -/
theorem process_status (p : Payment) (fetched : Option (List TransferRecord))
    (now_ms : Int) (now_s : ℚ) (d : PostOutcome) :
    (process_pending_payment p fetched now_ms now_s d).1.status = p.status ∨
      (process_pending_payment p fetched now_ms now_s d).1.status = .completed := by
  cases fetched with
  | none => exact Or.inl rfl
  | some txs => simpa [process_pending_payment] using scanTransfers_status p now_s d txs

/-- Each scheduler operation moves every payment's status only forward. -/
theorem applyOp_status_forward (op : SchedOp) (store : List Payment) :
    List.Forall₂ (fun p q => statusForward p.status q.status) store (applyOp op store) := by
  cases op with
  | expirySweep cutoff =>
    apply forall₂_status_map
    intro p
    by_cases hb : expirable cutoff p = true
    · have hp : p.status = PaymentStatus.pending := by
        unfold expirable at hb
        rw [Bool.and_eq_true] at hb
        exact eq_of_beq hb.1
      unfold sweepPayment
      rw [if_pos hb]
      exact Or.inr ⟨hp, Or.inr rfl⟩
    · unfold sweepPayment
      rw [if_neg hb]
      exact statusForward_refl _
  | engineRun f now_ms now_s d =>
    apply forall₂_status_map
    intro p
    by_cases hb : p.status = PaymentStatus.pending
    · rw [if_pos (show (p.status == PaymentStatus.pending) = true by simp [hb])]
      rcases process_status p (f p) now_ms now_s d with hs | hs
      · exact Or.inl hs.symm
      · exact Or.inr ⟨hb, Or.inl hs⟩
    · rw [if_neg (show ¬(p.status == PaymentStatus.pending) = true by simp [hb])]
      exact statusForward_refl _

/-- After one sweep, no payment of the store is still expirable at the
same cutoff. -/
theorem sweep_kills_expirable (cutoff : ℚ) (p : Payment) :
    expirable cutoff (sweepPayment cutoff p) = false := by
  cases hb : expirable cutoff p with
  | false => simp [sweepPayment, hb]
  | true =>
    unfold sweepPayment
    rw [if_pos hb]
    unfold expirable Payment.mark_expired
    simp

/-- The per-payment sweep step is idempotent. -/
theorem sweepPayment_idem (cutoff : ℚ) (p : Payment) :
    sweepPayment cutoff (sweepPayment cutoff p) = sweepPayment cutoff p := by
  have h := sweep_kills_expirable cutoff p
  generalize hq : sweepPayment cutoff p = q at h ⊢
  unfold sweepPayment
  rw [if_neg (by simp [h])]

/-! The claims. -/

/-- C1: for every payment and every transfer record of a successful fetch,
the transfer qualifies as a match iff its `to` address equals the
payment's wallet address, its token contract address equals the configured
stablecoin contract constant, and the decimal amount
`rawAmount / 10^tokenDecimals` differs from the expected amount by
strictly less than 1e-6 in absolute value. -/
theorem matching_predicate_iff (p : Payment) (tx : TransferRecord) :
    txQualifies p tx = true ↔
      (tx.to_addr = some p.wallet_address ∧
       tokenContractAddress tx = some USDT_TRC20_CONTRACT_ADDRESS ∧
       |(amountRaw tx : ℚ) / (10 : ℚ) ^ tokenDecimals tx - p.expected_amount_usdt|
         < 1 / 1000000) := by
  simp [txQualifies, receivedAmount, and_assoc]

/-- C2: `last_checked_timestamp` is non-decreasing across ticks: on a
failed ledger query the payment is returned entirely unmodified (the
early return of app.py line 194), on a successful query the checkpoint
is set to the current wall-clock time in milliseconds whether or not a
match was found, so under a monotone clock the checkpoint never
decreases. -/
theorem checkpoint_nondecreasing (p : Payment) (fetched : Option (List TransferRecord))
    (now_ms : Int) (now_s : ℚ) (d : PostOutcome)
    (hclock : p.last_checked_timestamp ≤ now_ms) :
    (fetched = none → (process_pending_payment p fetched now_ms now_s d).1 = p) ∧
    (∀ txs, fetched = some txs →
      (process_pending_payment p fetched now_ms now_s d).1.last_checked_timestamp = now_ms) ∧
    p.last_checked_timestamp ≤
      (process_pending_payment p fetched now_ms now_s d).1.last_checked_timestamp := by
  cases fetched with
  | none =>
    exact ⟨fun _ => rfl, ⟨(fun txs h => nomatch h), le_refl _⟩⟩
  | some txs =>
    refine ⟨(fun h => nomatch h), fun txs2 _ => ?_, ?_⟩
    · simp [process_pending_payment]
    · simpa [process_pending_payment] using hclock

/-- Witness for `checkpoint_nondecreasing`: payment `p0` (checkpoint 500)
processed at wall-clock 2000 ms. -/
theorem checkpoint_nondecreasing_witness :
    p0.last_checked_timestamp ≤ 2000 ∧
    p0.last_checked_timestamp ≤
      (process_pending_payment p0 (some [tx0]) 2000 7 .ok).1.last_checked_timestamp :=
  ⟨by decide, (checkpoint_nondecreasing p0 (some [tx0]) 2000 7 .ok (by decide)).2.2⟩

/-- C10: missing transfer fields are defaulted rather than rejected: a
present `token_info` without `decimals` is treated as 6 decimals, so the
amount is `raw / 10^6`; a missing `value` is treated as raw amount 0, so
the amount is 0. -/
theorem missing_fields_defaulted (tx : TransferRecord) :
    (∀ ti, tx.token_info = some ti → ti.decimals = none →
        tokenDecimals tx = 6 ∧
        receivedAmount tx = (amountRaw tx : ℚ) / (10 : ℚ) ^ (6 : ℕ)) ∧
    (tx.value = none → amountRaw tx = 0 ∧ receivedAmount tx = 0) := by
  constructor
  · intro ti hti hdec
    have h6 : tokenDecimals tx = 6 := by simp [tokenDecimals, hti, hdec]
    exact ⟨h6, by simp [receivedAmount, h6]⟩
  · intro hv
    have h0 : amountRaw tx = 0 := by simp [amountRaw, hv]
    exact ⟨h0, by simp [receivedAmount, h0]⟩

/-- Witness for `missing_fields_defaulted`: `txNoDecimals` has
`token_info` without `decimals`, `txNoValue` has no `value`. -/
theorem missing_fields_defaulted_witness :
    (txNoDecimals.token_info = some ⟨some USDT_TRC20_CONTRACT_ADDRESS, none⟩ ∧
     tokenDecimals txNoDecimals = 6) ∧
    (txNoValue.value = none ∧ amountRaw txNoValue = 0 ∧ receivedAmount txNoValue = 0) :=
  ⟨⟨rfl,
    ((missing_fields_defaulted txNoDecimals).1
      ⟨some USDT_TRC20_CONTRACT_ADDRESS, none⟩ rfl rfl).1⟩,
   ⟨rfl, (missing_fields_defaulted txNoValue).2 rfl⟩⟩

/-- C6 (counterexample): invoking `mark_expired` on the COMPLETED payment
`completedA` does not leave it unchanged with an `AlreadyTerminalError` —
it silently overwrites the status with EXPIRED, and `mark_completed` on
the same terminal payment likewise overwrites the completion fields. -/
theorem terminal_transition_unguarded_cex :
    completedA.status = .completed ∧
    completedA.mark_expired.status = .expired ∧
    completedA.mark_expired.status ≠ completedA.status ∧
    (completedA.mark_completed (some "tx-hash-9") 60 3000).transaction_hash
      = some "tx-hash-9" ∧
    (completedA.mark_completed (some "tx-hash-9") 60 3000).transaction_hash
      ≠ completedA.transaction_hash := by
  refine ⟨rfl, rfl, ?_, rfl, ?_⟩ <;> decide

/-- C6 amended: `mark_completed` and `mark_expired` (models.py lines
93-102) carry no terminal-state guard at all: on any payment, terminal
ones included, they return normally — no `AlreadyTerminalError` exists in
the code — and unconditionally overwrite the status and the completion
fields.  Double transitions are avoided only because the scheduler selects
exclusively PENDING payments. -/
theorem mark_transitions_unguarded (p : Payment) (h : Option String) (amt now_s : ℚ) :
    p.mark_expired.status = .expired ∧
    (p.mark_completed h amt now_s).status = .completed ∧
    (p.mark_completed h amt now_s).transaction_hash = h ∧
    (p.mark_completed h amt now_s).received_amount_usdt = some amt ∧
    (p.mark_completed h amt now_s).completed_at = some now_s :=
  ⟨rfl, rfl, rfl, rfl, rfl⟩

/-- C3 (code bug): at the failing input — pending payment `p0` matched by
transfer `tx0` while the webhook POST fails — the engine nevertheless
marks the callback delivered: `send_callback` (app.py lines 131-137)
catches the `RequestException` itself and returns normally, so the
`except` branch of app.py lines 243-245 is unreachable,
`mark_callback_success` runs, and a `callback_sent` event is logged
instead of `callback_failed`. -/
theorem webhook_failure_still_marked_delivered :
    (process_pending_payment p0 (some [tx0]) 2000 7 .requestError).1.status = .completed ∧
    (process_pending_payment p0 (some [tx0]) 2000 7 .requestError).1.callback_attempts = 1 ∧
    (process_pending_payment p0 (some [tx0]) 2000 7 .requestError).1.callback_success = true ∧
    (process_pending_payment p0 (some [tx0]) 2000 7 .requestError).2 =
      [.checking, .completed, .callback_sent] := by
  have hq : txQualifies p0 tx0 = true := by
    simp [txQualifies, p0, tx0, receivedAmount, amountRaw, tokenDecimals, tokenContractAddress]
    norm_num
  have hscan := scanTransfers_head_match p0 7 .requestError tx0 [] hq
  have hp : process_pending_payment p0 (some [tx0]) 2000 7 .requestError =
      ({ ((p0.mark_completed tx0.transaction_id (receivedAmount tx0)
            7).increment_callback_attempt 7).mark_callback_success with
          last_checked_timestamp := 2000 },
       [.checking, .completed, .callback_sent]) := by
    simp [process_pending_payment, hscan]
  rw [hp]
  refine ⟨rfl, ?_, rfl, rfl⟩
  simp [Payment.mark_completed, Payment.increment_callback_attempt,
    Payment.mark_callback_success, p0]

/-- C4 (counterexample): with a store holding only the COMPLETED payment
`completedA`, creating `newA` — a payment reusing `completedA`'s order id —
does not succeed: the application-level check of app.py lines 310-317 only
looks for a PENDING duplicate and passes, but the commit violates the
unconditional `unique=True` constraint on `order_id` (models.py line 31),
so creation fails with an IntegrityError and the store is unchanged. -/
theorem terminal_order_id_reuse_fails :
    (create_payment [completedA] newA).1 = .integrityError ∧
    (create_payment [completedA] newA).1 ≠ CreateResult.created newA.id ∧
    (create_payment [completedA] newA).2 = [completedA] := by
  refine ⟨?_, ?_, ?_⟩ <;> decide

/-- C4 amended: order-id uniqueness as implemented: a duplicate of a
PENDING payment is rejected with the duplicate-order error (HTTP 409); a
duplicate of a payment in any other (terminal) state passes the
application check but is rejected at commit by the global unique
constraint (IntegrityError, HTTP 500) — it does NOT succeed; only a fresh
order id creates a payment. -/
theorem create_payment_order_id_uniqueness (store : List Payment) (np : Payment) :
    ((∃ q ∈ store, q.order_id = np.order_id ∧ q.status = .pending) →
      create_payment store np = (.duplicatePendingOrder, store)) ∧
    ((∀ q ∈ store, ¬(q.order_id = np.order_id ∧ q.status = .pending)) →
      (∃ q ∈ store, q.order_id = np.order_id) →
      create_payment store np = (.integrityError, store)) ∧
    ((∀ q ∈ store, q.order_id ≠ np.order_id) →
      create_payment store np = (.created np.id, store ++ [np])) := by
  have hA : (store.any fun q =>
        q.order_id == np.order_id && q.status == PaymentStatus.pending) = true ↔
      ∃ q ∈ store, q.order_id = np.order_id ∧ q.status = .pending := by
    simp [List.any_eq_true]
  have hB : (store.any fun q => q.order_id == np.order_id) = true ↔
      ∃ q ∈ store, q.order_id = np.order_id := by
    simp [List.any_eq_true]
  refine ⟨fun h => ?_, fun h1 h2 => ?_, fun h => ?_⟩
  · unfold create_payment
    rw [if_pos (hA.mpr h)]
  · have hno : ¬(store.any fun q =>
        q.order_id == np.order_id && q.status == PaymentStatus.pending) = true := by
      rw [hA]
      rintro ⟨q, hq, hid, hst⟩
      exact h1 q hq ⟨hid, hst⟩
    unfold create_payment
    rw [if_neg hno, if_pos (hB.mpr h2)]
  · have hno1 : ¬(store.any fun q =>
        q.order_id == np.order_id && q.status == PaymentStatus.pending) = true := by
      rw [hA]
      rintro ⟨q, hq, hid, _⟩
      exact h q hq hid
    have hno2 : ¬(store.any fun q => q.order_id == np.order_id) = true := by
      rw [hB]
      rintro ⟨q, hq, hid⟩
      exact h q hq hid
    unfold create_payment
    rw [if_neg hno1, if_neg hno2]

/-- Witness for `create_payment_order_id_uniqueness`: creating
`dupPending` while the PENDING payment `p0` holds the same order id is
rejected with the duplicate-order error. -/
theorem create_payment_order_id_uniqueness_witness :
    (∃ q ∈ [p0], q.order_id = dupPending.order_id ∧ q.status = .pending) ∧
    create_payment [p0] dupPending = (.duplicatePendingOrder, [p0]) := by
  have h : ∃ q ∈ [p0], q.order_id = dupPending.order_id ∧ q.status = .pending :=
    ⟨p0, by simp, rfl, rfl⟩
  exact ⟨h, (create_payment_order_id_uniqueness [p0] dupPending).1 h⟩

/-- C5: first-match-wins: when the fetched batch decomposes as a prefix of
non-qualifying transfers, one qualifying transfer `tx`, and an arbitrary
tail, processing yields exactly the same result as if the batch ended at
`tx` (the scan terminates at the first match, so every later transfer —
qualifying or not — is ignored), the payment ends COMPLETED with
`transaction_hash` stamped from that first qualifying transfer, and
exactly one `completed` event is logged. -/
theorem first_match_wins (p : Payment) (pre : List TransferRecord)
    (tx : TransferRecord) (post : List TransferRecord)
    (now_ms : Int) (now_s : ℚ) (d : PostOutcome)
    (hpre : ∀ t ∈ pre, txQualifies p t = false) (htx : txQualifies p tx = true) :
    process_pending_payment p (some (pre ++ tx :: post)) now_ms now_s d =
      process_pending_payment p (some (pre ++ [tx])) now_ms now_s d ∧
    (process_pending_payment p (some (pre ++ tx :: post)) now_ms now_s d).1.status
      = .completed ∧
    (process_pending_payment p (some (pre ++ tx :: post)) now_ms now_s d).1.transaction_hash
      = tx.transaction_id ∧
    ((process_pending_payment p (some (pre ++ tx :: post)) now_ms now_s d).2.count
      EventType.completed) = 1 := by
  have hscan : scanTransfers p now_s d (pre ++ tx :: post) =
      (((p.mark_completed tx.transaction_id (receivedAmount tx)
          now_s).increment_callback_attempt now_s).mark_callback_success,
       [.completed, .callback_sent]) := by
    rw [scanTransfers_skip p now_s d pre _ hpre,
      scanTransfers_head_match p now_s d tx post htx]
  have hscan2 : scanTransfers p now_s d (pre ++ [tx]) =
      (((p.mark_completed tx.transaction_id (receivedAmount tx)
          now_s).increment_callback_attempt now_s).mark_callback_success,
       [.completed, .callback_sent]) := by
    rw [scanTransfers_skip p now_s d pre _ hpre,
      scanTransfers_head_match p now_s d tx [] htx]
  refine ⟨?_, ?_, ?_, ?_⟩
  · simp [process_pending_payment, hscan, hscan2]
  · simp [process_pending_payment, hscan, Payment.mark_completed,
      Payment.increment_callback_attempt, Payment.mark_callback_success]
  · simp [process_pending_payment, hscan, Payment.mark_completed,
      Payment.increment_callback_attempt, Payment.mark_callback_success]
  · simp only [process_pending_payment, hscan]
    decide

/-- Witness for `first_match_wins`: the batch `[txOther, tx0, tx1]`, where
`txOther` goes to another wallet and both `tx0` and `tx1` qualify for
`p0`: the hash stamped is `tx0`'s and `tx1` is ignored. -/
theorem first_match_wins_witness :
    (∀ t ∈ [txOther], txQualifies p0 t = false) ∧
    txQualifies p0 tx0 = true ∧
    (process_pending_payment p0 (some ([txOther] ++ tx0 :: [tx1])) 2000 7 .ok).1.transaction_hash
      = tx0.transaction_id ∧
    process_pending_payment p0 (some ([txOther] ++ tx0 :: [tx1])) 2000 7 .ok =
      process_pending_payment p0 (some ([txOther] ++ [tx0])) 2000 7 .ok := by
  have h1 : ∀ t ∈ [txOther], txQualifies p0 t = false := by
    intro t ht
    simp only [List.mem_singleton] at ht
    subst ht
    simp [txQualifies, p0, txOther, tx0]
  have h2 : txQualifies p0 tx0 = true := by
    simp [txQualifies, p0, tx0, receivedAmount, amountRaw, tokenDecimals, tokenContractAddress]
    norm_num
  exact ⟨h1, h2, (first_match_wins p0 [txOther] tx0 [tx1] 2000 7 .ok h1 h2).2.2.1,
    (first_match_wins p0 [txOther] tx0 [tx1] 2000 7 .ok h1 h2).1⟩

/-- C7 (counterexample): an error outside the caught classes raised while
processing the first payment is NOT handled per item: the per-item handler
of app.py lines 162-164 catches only `(RequestException, ValueError)`, so
the exception reaches the tick-level handler and the second pending
payment of the same tick is never processed — contradicting the claim
that any per-item error leaves every other payment processed. -/
theorem per_item_other_error_aborts_tick_cex :
    (monitorLoop [("pay-1", some .otherException), ("pay-2", none)]).1 = ["pay-1"] ∧
    "pay-2" ∉ (monitorLoop [("pay-1", some .otherException), ("pay-2", none)]).1 := by
  decide

/-- C7 amended: per-item failure isolation holds exactly for the caught
exception classes: if no payment's processing raises an exception outside
`(RequestException, ValueError)`, then every pending payment of the tick
is processed, and each caught failure is logged as a per-item error event
without aborting the loop. -/
theorem monitor_tick_isolation (items : List (String × Option PyExc))
    (h : ∀ it ∈ items, it.2 ≠ some PyExc.otherException) :
    (monitorLoop items).1 = items.map Prod.fst ∧
    (monitorLoop items).2 =
      (items.filter (fun it => it.2.isSome)).map (fun it => (it.1, EventType.procError)) := by
  induction items with
  | nil => exact ⟨rfl, rfl⟩
  | cons it rest ih =>
    have hrest : ∀ u ∈ rest, u.2 ≠ some PyExc.otherException :=
      fun u hu => h u (List.mem_cons_of_mem it hu)
    obtain ⟨hr1, hr2⟩ := ih hrest
    obtain ⟨pid, oe⟩ := it
    match oe with
    | none => simp [monitorLoop, hr1, hr2]
    | some PyExc.requestException => simp [monitorLoop, hr1, hr2]
    | some PyExc.valueError => simp [monitorLoop, hr1, hr2]
    | some PyExc.otherException =>
      exact absurd rfl (h (pid, some PyExc.otherException) (List.mem_cons_self _ _))

/-- Witness for `monitor_tick_isolation`: a tick whose first payment
raises a caught `RequestException` still processes the second payment. -/
theorem monitor_tick_isolation_witness :
    (∀ it ∈ [("pay-1", some PyExc.requestException), ("pay-2", (none : Option PyExc))],
      it.2 ≠ some PyExc.otherException) ∧
    (monitorLoop [("pay-1", some PyExc.requestException), ("pay-2", none)]).1
      = ["pay-1", "pay-2"] := by
  have h : ∀ it ∈ [("pay-1", some PyExc.requestException), ("pay-2", (none : Option PyExc))],
      it.2 ≠ some PyExc.otherException := by decide
  exact ⟨h, ((monitor_tick_isolation
    [("pay-1", some PyExc.requestException), ("pay-2", none)] h).1).trans rfl⟩

/-- C8: across any sequence of scheduler operations (expiry sweeps and
matching-engine passes over the pending payments), every payment's status
only moves forward: pointwise, the old status equals the new one, or the
old status is Pending and the new one is Completed or Expired.  In
particular a payment in a terminal state is never transitioned again and
no payment ever regresses to Pending. -/
theorem scheduler_status_forward_only (ops : List SchedOp) (store : List Payment) :
    List.Forall₂ (fun p q => statusForward p.status q.status) store (applyOps ops store) := by
  induction ops generalizing store with
  | nil =>
    exact List.forall₂_same.mpr fun p _ => statusForward_refl p.status
  | cons op rest ih =>
    exact forall₂_status_trans (applyOp_status_forward op store) (ih (applyOp op store))

/-- C9: the expiry sweep is idempotent: sweeping a store that has already
been swept at the same cutoff selects no payment (an Expired payment no
longer satisfies the PENDING filter of `get_expired_payments`), changes no
status, and appends no event. -/
theorem expiry_sweep_idempotent (cutoff : ℚ) (store : List Payment) :
    cleanup_expired_payments cutoff (cleanup_expired_payments cutoff store).1 =
      ((cleanup_expired_payments cutoff store).1, []) := by
  have hmap : ∀ l : List Payment,
      (l.map (sweepPayment cutoff)).map (sweepPayment cutoff) = l.map (sweepPayment cutoff) := by
    intro l
    induction l with
    | nil => rfl
    | cons p ps ih => simp [sweepPayment_idem, ih]
  have hfil : (store.map (sweepPayment cutoff)).filter (expirable cutoff) = [] := by
    rw [List.filter_eq_nil_iff]
    intro a ha
    obtain ⟨q, _, rfl⟩ := List.mem_map.mp ha
    simp [sweep_kills_expirable]
  unfold cleanup_expired_payments
  rw [hmap store, hfil]
  rfl

end CPSP
